import Mathlib

/-!
# Verification of the authorization and caching subsystem of the Nimion backend

Shallow embedding of the core described in `spec.md`: the credential codec
(`src/utils/jwt.util.ts`), the cache store adapter (`src/lib/redis.ts`), the
cache-aside service (`src/services/cache.service.ts`), the authentication and
authorization middleware (`src/middleware/request.middleware.ts`, second
document: `auth.middleware.ts`), and the cache-relevant parts of the entity
services (`role.service.ts`, `admin.service.ts`, `user.service.ts`).

JavaScript values cached through `JSON.stringify`/`JSON.parse` are modelled by
`JsonValue`; JavaScript truthiness (`if (x)`) by `JsonValue.truthy`.  Since
`JSON.stringify` is injective and never produces the empty string on values the
services cache, the round trip through the serialized string in
`CacheService.get` (`data ? JSON.parse(data) : null`) is the identity on the
stored value, and the store holds `JsonValue`s directly.
-/

namespace NodeBackend

/-- A JSON-serializable JavaScript value (the payload type of the cache). -/
inductive JsonValue where
  | null : JsonValue
  | bool (b : Bool) : JsonValue
  | num (n : Int) : JsonValue
  | str (s : String) : JsonValue
  | arr (elems : List JsonValue) : JsonValue

/-- JavaScript truthiness of a deserialized value: `null`, `false`, `0` and
`""` are falsy; every array (or object) is truthy. -/
def JsonValue.truthy : JsonValue → Bool
  | .null => false
  | .bool b => b
  | .num n => n != 0
  | .str s => s ≠ ""
  | .arr _ => true

/-! ## Cache store adapter (`src/lib/redis.ts`)

The Redis client state: the connected flag (`isReady`), the key/value store
with per-key absolute expiry, the current time in seconds, and a `failing`
flag modelling an underlying I/O error on every operation (the `try/catch`
blocks in `cache.service.ts` are exercised exactly when `failing` is set). -/

/-- One stored cache entry: the value and its absolute expiry time
(`none` = the key was set without a TTL and never expires). -/
structure RedisEntry where
  value : JsonValue
  expireAt : Option Nat

/-- State of the `RedisClient` singleton. -/
structure RedisState where
  ready : Bool
  failing : Bool
  store : List (String × RedisEntry)
  now : Nat

namespace RedisClient

/-- `redis.get(key)`: the stored value if present and unexpired, else `none`
(Redis returns `nil` for expired keys); an I/O error when `failing`. -/
def get (s : RedisState) (key : String) : Except String (Option JsonValue) :=
  if s.failing then .error "io error"
  else .ok ((s.store.find? (fun kv => kv.1 == key)).bind (fun kv =>
    match kv.2.expireAt with
    | none => some kv.2.value
    | some t => if s.now < t then some kv.2.value else none))

/-- `redis.set(key, value, ttlSeconds?)`: `setEx` when `ttlSeconds` is truthy
(present and nonzero), plain `set` (no expiry) otherwise. -/
def set (s : RedisState) (key : String) (value : JsonValue)
    (ttlSeconds : Option Nat) : Except String RedisState :=
  if s.failing then .error "io error"
  else
    let expireAt : Option Nat :=
      match ttlSeconds with
      | some t => if t == 0 then none else some (s.now + t)
      | none => none
    .ok { s with store := (key, ⟨value, expireAt⟩) :: s.store.filter (fun kv => kv.1 != key) }

/-- `redis.del(key)`. -/
def del (s : RedisState) (key : String) : Except String RedisState :=
  if s.failing then .error "io error"
  else .ok { s with store := s.store.filter (fun kv => kv.1 != key) }

/-- Redis glob matching restricted to the patterns this codebase uses: at most
one `*` wildcard standing for zero or more characters. -/
def globMatch (pattern key : String) : Bool :=
  match pattern.splitOn "*" with
  | [p] => key == p
  | [p, q] => p.length + q.length ≤ key.length && key.startsWith p && key.endsWith q
  | _ => false

/-- `redis.keys(pattern)`. -/
def keys (s : RedisState) (pattern : String) : Except String (List String) :=
  if s.failing then .error "io error"
  else .ok ((s.store.filter (fun kv => globMatch pattern kv.1)).map (fun kv => kv.1))

end RedisClient

/-! ## Cache-aside service (`src/services/cache.service.ts`)

Every operation first checks `redis.isReady()` and wraps the Redis call in
`try/catch`: an I/O error is logged and turned into a miss / no-op, never
propagated. -/

/-- A service-level error (`ApiError` in `error.middleware.ts`): message and
HTTP status code.  A thrown `ApiError` is the `.error` case of `Except`. -/
structure ApiError where
  message : String
  statusCode : Nat
deriving Repr, DecidableEq

namespace CacheService

/-- `CacheService.get<T>(key)`: `null` when the client is not ready, on a miss,
or on a caught I/O error; otherwise `JSON.parse` of the stored string, which is
the stored value (the stored string is nonempty, so `data ? ... : null` takes
the parse branch whenever a value is present). -/
def get (s : RedisState) (key : String) : JsonValue :=
  if !s.ready then .null
  else
    match RedisClient.get s key with
    | .error _ => .null
    | .ok none => .null
    | .ok (some v) => v

/-- `CacheService.set<T>(key, value, ttlSeconds?)`: no-op when not ready or on
a caught I/O error; the effective TTL is `ttlSeconds || defaultTTL`
(JavaScript `||`: an absent or zero `ttlSeconds` falls back to the default). -/
def set (s : RedisState) (defaultTTL : Nat) (key : String) (value : JsonValue)
    (ttlSeconds : Option Nat) : RedisState :=
  if !s.ready then s
  else
    let effTtl : Nat :=
      match ttlSeconds with
      | some t => if t == 0 then defaultTTL else t
      | none => defaultTTL
    match RedisClient.set s key value (some effTtl) with
    | .error _ => s
    | .ok s' => s'

/-- `CacheService.delete(key)`: no-op when not ready or on a caught error. -/
def delete (s : RedisState) (key : String) : RedisState :=
  if !s.ready then s
  else
    match RedisClient.del s key with
    | .error _ => s
    | .ok s' => s'

/-- `CacheService.deletePattern(pattern)`: enumerate matching keys, delete each. -/
def deletePattern (s : RedisState) (pattern : String) : RedisState :=
  if !s.ready then s
  else
    match RedisClient.keys s pattern with
    | .error _ => s
    | .ok ks =>
      ks.foldl (fun acc k =>
        match RedisClient.del acc k with
        | .error _ => acc
        | .ok acc' => acc') s

/-- Outcome of one `getOrSet` call: the returned (or thrown) value, the cache
state afterwards, and how many times the `fetcher` was invoked. -/
structure GetOrSetResult where
  result : Except ApiError JsonValue
  state : RedisState
  calls : Nat

/-- `CacheService.getOrSet(key, fetcher, ttlSeconds?)` (cache-aside):
`const cached = await this.get(key); if (cached) return cached;` — note the
JavaScript truthiness test on the deserialized value — then
`const data = await fetcher(); await this.set(key, data, ttlSeconds);
return data;`.  The pure `fetcher` argument is the value the producer would
compute (or the error it would throw); `calls` counts its invocations. -/
def getOrSet (s : RedisState) (defaultTTL : Nat) (key : String)
    (fetcher : Except ApiError JsonValue) (ttlSeconds : Option Nat) :
    GetOrSetResult :=
  let cached := get s key
  if cached.truthy then ⟨.ok cached, s, 0⟩
  else
    match fetcher with
    | .error e => ⟨.error e, s, 1⟩
    | .ok data => ⟨.ok data, set s defaultTTL key data ttlSeconds, 1⟩

end CacheService

/-! ## Credential codec (`src/utils/jwt.util.ts`, spec §4.1)

`generateToken` / `verifyToken` delegate to the external `jsonwebtoken`
library; the signing and verification core is therefore modelled from the
spec. -/

/-- The claim set carried by a token (`JwtPayload` in `src/types/index.ts`).
`type` is `"user"` or `"admin"`. -/
structure JwtPayload where
  id : String
  email : String
  role : String
  roleId : Option String
  type : String
deriving Repr, DecidableEq

/-- Modelled from the spec: an idealized message authentication code over the
shared secret, the claims and the issued-at/expiry timestamps.  The code is
collision-free (two signatures are equal exactly when all inputs are), which
models "any alteration of claims or expiry invalidates the signature"
(spec §4.1) together with unforgeability without the secret. -/
structure Signature where
  secret : String
  payload : JwtPayload
  iat : Nat
  exp : Nat
deriving Repr, DecidableEq

/-- Modelled from the spec: a signed, time-bounded credential token — the
claim set, issued-at and expiry timestamps, and the integrity signature
(spec §3 "Credential Token"). -/
structure Token where
  payload : JwtPayload
  iat : Nat
  exp : Nat
  sig : Signature
deriving Repr, DecidableEq

/-- Modelled from the spec: `sign(claims, ttl)` at current time `now` —
"produces an opaque string encoding `claims` plus expiry `now + ttl`,
integrity-protected with a shared secret" (spec §4.1).  `generateToken` uses
the configured ttl (default 7 days), `generateRefreshToken` a fixed 30 days;
both share this signing core. -/
def sign (secret : String) (claims : JwtPayload) (ttl : Nat) (now : Nat) : Token :=
  { payload := claims, iat := now, exp := now + ttl,
    sig := ⟨secret, claims, now, now + ttl⟩ }

/-- Modelled from the spec: `verify(token)` at current time `now` — "checks
signature integrity and expiry; returns the decoded claims only if both hold,
otherwise a uniform 'invalid' result" (spec §4.1).  `verifyToken` in
`jwt.util.ts` maps every verification failure to `null` via its `try/catch`.
A token is expired once `now` reaches `exp` (the expiry instant itself is
rejected, as in `jsonwebtoken`). -/
def verify (secret : String) (tok : Token) (now : Nat) : Option JwtPayload :=
  if tok.sig ≠ (⟨secret, tok.payload, tok.iat, tok.exp⟩ : Signature) then none
  else if tok.exp ≤ now then none
  else some tok.payload

/-! ## Entity rows and the database (`prisma` collaborator, spec §6) -/

/-- A persisted `Role` row.  `permissions` is stored as JSON text or SQL
`NULL`; it is modelled in parsed form (`JSON.stringify` on write and
`JSON.parse` on read are mutually inverse). -/
structure Role where
  id : String
  name : String
  slug : String
  description : Option String
  permissions : Option (List String)
  isDefault : Bool
  isActive : Bool
deriving Repr, DecidableEq

/-- A persisted `Admin` row (fields the embedded operations touch). -/
structure Admin where
  id : String
  email : String
  password : String
  name : String
  phone : Option String
  avatar : Option String
  role : String
  permissions : Option (List String)
  isActive : Bool
deriving Repr, DecidableEq

/-- A persisted `User` row (fields the embedded operations touch). -/
structure User where
  id : String
  email : String
  password : String
  name : String
  phone : Option String
  avatar : Option String
  roleId : String
  isActive : Bool
deriving Repr, DecidableEq

/-- A persisted `Session` row: a per-client API key with owner and expiry
(`prisma.session` in `request.middleware.ts`). -/
structure Session where
  token : String
  userId : String
  userType : String
  expiresAt : Nat
deriving Repr, DecidableEq

/-- The relational store consumed through entity CRUD operations. -/
structure Db where
  roles : List Role
  admins : List Admin
  users : List User
  sessions : List Session
deriving Repr, DecidableEq

/-- `prisma.user.findUnique({ where: { id } })`. -/
def findUser (db : Db) (id : String) : Option User :=
  db.users.find? (fun u => u.id == id)

/-- `prisma.role.findUnique({ where: { id } })`. -/
def findRole (db : Db) (id : String) : Option Role :=
  db.roles.find? (fun r => r.id == id)

/-- `prisma.session.findFirst({ where: { token: apiKey, expiresAt: { gte: new Date() } } })`. -/
def findSession (db : Db) (now : Nat) (apiKey : String) : Option Session :=
  db.sessions.find? (fun s => s.token == apiKey && now ≤ s.expiresAt)

/-! ## Authentication and authorization middleware
(`src/middleware/request.middleware.ts`, second embedded document:
`auth.middleware.ts`) -/

/-- The two headers the authentication boundary reads (spec §6):
`Authorization` and `X-API-Key`.  `none` is an absent header; JavaScript
treats the empty string like an absent one (`if (!apiKey)`). -/
structure AuthHeaders where
  authorization : Option String
  xApiKey : Option String
deriving Repr, DecidableEq

/-- The environment an authentication middleware call runs in: the configured
static key (`config.apiKey`, empty string when `API_KEY` is unset), the token
verifier (`verifyToken` over the wire format, external `jsonwebtoken`), the
database, the current time, and a flag modelling a thrown database error
(exercising the middleware's `try/catch`). -/
structure AuthEnv where
  apiKey : String
  verifyTok : String → Option JwtPayload
  db : Db
  now : Nat
  dbFails : Bool

/-- Outcome of an authentication middleware: attach the principal and
continue, or short-circuit with 401. -/
inductive AuthResult where
  | ok (user : JwtPayload) : AuthResult
  | unauthorized (message : String) : AuthResult
deriving Repr, DecidableEq

/-- `h.startsWith(pre)`, computed on the underlying character list (the
JavaScript `String.prototype.startsWith`). -/
def strStartsWith (h pre : String) : Bool :=
  pre.data.isPrefixOf h.data

/-- `h.substring(n)`: drop the first `n` characters. -/
def strDrop (h : String) (n : Nat) : String :=
  ⟨h.data.drop n⟩

/-- `extractTokenFromHeader` (`jwt.util.ts`): `null` unless the header is a
nonempty string starting with `"Bearer "`; otherwise the rest of the header
(`authHeader.substring(7)`). -/
def extractTokenFromHeader (authHeader : Option String) : Option String :=
  match authHeader with
  | none => none
  | some h =>
    if h == "" || !strStartsWith h "Bearer " then none
    else some (strDrop h 7)

/-- `authenticate`: bearer-only authentication. -/
def authenticate (env : AuthEnv) (req : AuthHeaders) : AuthResult :=
  match extractTokenFromHeader req.authorization with
  | none => .unauthorized "Access token is required"
  | some token =>
    if token == "" then .unauthorized "Access token is required"
    else
      match env.verifyTok token with
      | none => .unauthorized "Invalid or expired token"
      | some decoded => .ok decoded

/-- The Principal attached on a static-key match: the `system`/`api`/`admin`
sentinel. -/
def systemUser : JwtPayload :=
  { id := "system", email := "api@system.local", role := "api",
    roleId := none, type := "admin" }

/-- The Principal built from a matching session row. -/
def sessionUser (s : Session) : JwtPayload :=
  { id := s.userId, email := "api-user", role := "api",
    roleId := none, type := s.userType }

/-- `authenticateApiKey`: API-key-only authentication — static configured key
first (`config.apiKey && apiKey === config.apiKey`), else an unexpired session
row; a thrown database error is caught and falls to the final 401. -/
def authenticateApiKey (env : AuthEnv) (req : AuthHeaders) : AuthResult :=
  match req.xApiKey with
  | none => .unauthorized "API key is required"
  | some apiKey =>
    if apiKey == "" then .unauthorized "API key is required"
    else if env.apiKey != "" && apiKey == env.apiKey then .ok systemUser
    else if env.dbFails then .unauthorized "Invalid API key"
    else
      match findSession env.db env.now apiKey with
      | some session => .ok (sessionUser session)
      | none => .unauthorized "Invalid API key"

/-- The API-key section of `multiAuth` (everything after the bearer attempt,
which only returns early on success): static key, then session row, then the
final 401. -/
def multiAuthApiKeyFallback (env : AuthEnv) (req : AuthHeaders) : AuthResult :=
  match req.xApiKey with
  | none => .unauthorized "Authentication required. Provide JWT token or API key"
  | some apiKey =>
    if apiKey == "" then
      .unauthorized "Authentication required. Provide JWT token or API key"
    else if env.apiKey != "" && apiKey == env.apiKey then .ok systemUser
    else if env.dbFails then
      .unauthorized "Authentication required. Provide JWT token or API key"
    else
      match findSession env.db env.now apiKey with
      | some session => .ok (sessionUser session)
      | none => .unauthorized "Authentication required. Provide JWT token or API key"

/-- `multiAuth`: try the bearer token first; its block returns early only when
verification succeeds, so control falls through to the API-key section both
when no token is presented and when the presented token fails verification. -/
def multiAuth (env : AuthEnv) (req : AuthHeaders) : AuthResult :=
  match extractTokenFromHeader req.authorization with
  | some token =>
    if token != "" then
      match env.verifyTok token with
      | some decoded => .ok decoded
      | none => multiAuthApiKeyFallback env req
    else multiAuthApiKeyFallback env req
  | none => multiAuthApiKeyFallback env req

/-- Outcome of an authorization middleware: continue, 401, or 403. -/
inductive AuthzResult where
  | ok : AuthzResult
  | unauthorized (message : String) : AuthzResult
  | forbidden (message : String) : AuthzResult
deriving Repr, DecidableEq

/-- `authorizeType(...allowedTypes)` applied to the request's attached
principal (`req.user`, `none` when no authentication middleware attached
one). -/
def authorizeType (allowedTypes : List String) (user : Option JwtPayload) :
    AuthzResult :=
  match user with
  | none => .unauthorized "Authentication required"
  | some u =>
    if !allowedTypes.contains u.type then
      .forbidden "You do not have permission to access this resource"
    else .ok

/-- `authorizeRole(...allowedRoles)`. -/
def authorizeRole (allowedRoles : List String) (user : Option JwtPayload) :
    AuthzResult :=
  match user with
  | none => .unauthorized "Authentication required"
  | some u =>
    if !allowedRoles.contains u.role then
      .forbidden "You do not have permission to access this resource"
    else .ok

/-- `authorizePermission(...requiredPermissions)`: principals with
`role === "api"` bypass the check; otherwise the principal's user row and its
role's permission text are loaded and every required permission must be
present (`requiredPermissions.every(...)`).  A missing user row returns 401
`"User not found"`; a thrown lookup error — including the required `role`
relation being unresolvable — is caught and returns 403
`"Permission check failed"`. -/
def authorizePermission (env : AuthEnv) (requiredPermissions : List String)
    (user : Option JwtPayload) : AuthzResult :=
  match user with
  | none => .unauthorized "Authentication required"
  | some u =>
    if u.role == "api" then .ok
    else if env.dbFails then .forbidden "Permission check failed"
    else
      match findUser env.db u.id with
      | none => .unauthorized "User not found"
      | some dbUser =>
        match findRole env.db dbUser.roleId with
        | none => .forbidden "Permission check failed"
        | some role =>
          let permissions := role.permissions.getD []
          if requiredPermissions.all (fun perm => permissions.contains perm)
          then .ok
          else .forbidden "Insufficient permissions"

/-- `optionalAuth`: attach the principal when a presented bearer token
verifies; never fail the request. -/
def optionalAuth (env : AuthEnv) (req : AuthHeaders) : Option JwtPayload :=
  match extractTokenFromHeader req.authorization with
  | some token => if token != "" then env.verifyTok token else none
  | none => none

/-! ## Entity services (cache-relevant contract, spec §4.6)

Each write path is embedded as a function from the database to the
business-logic result, the new database, and the ordered list of persistence
mutations and cache invalidations it performs (`prisma.*` writes,
`cacheService.delete`, `cacheService.deletePattern`), in source order.
Reads (`findUnique`/`findFirst`) and events of failed calls that throw before
mutating are not in the trace. -/

/-- One externally visible effect of a service write path, in call order. -/
inductive ServiceEvent where
  | dbMutate (op : String) : ServiceEvent
  | cacheDel (key : String) : ServiceEvent
  | cacheDelPattern (pattern : String) : ServiceEvent
deriving Repr, DecidableEq

/-- Result triple of a service write path. -/
structure ServiceOutcome (α : Type) where
  result : Except ApiError α
  db : Db
  events : List ServiceEvent
deriving Repr

namespace RoleService

/-- `CreateRoleDto` (`src/types/index.ts`). -/
structure CreateRoleDto where
  name : String
  slug : String
  description : Option String
  permissions : Option (List String)
  isDefault : Option Bool
deriving Repr, DecidableEq

/-- `UpdateRoleDto` (`src/types/index.ts`): note there is no `isDefault`
field. -/
structure UpdateRoleDto where
  name : Option String
  description : Option String
  permissions : Option (List String)
  isActive : Option Bool
deriving Repr, DecidableEq

/-- `RoleService.create`: reject when a role with the same name or slug
exists (400); otherwise insert the row — `isDefault: data.isDefault || false`,
without touching any other role's `isDefault` — then clear the `roles:*`
pattern.  `newId` is the store-generated row id; `isActive` takes the schema
default `true`. -/
def create (db : Db) (data : CreateRoleDto) (newId : String) :
    ServiceOutcome Role :=
  if db.roles.any (fun r => r.name == data.name || r.slug == data.slug) then
    ⟨.error ⟨"Role with this name or slug already exists", 400⟩, db, []⟩
  else
    let role : Role :=
      { id := newId, name := data.name, slug := data.slug,
        description := data.description, permissions := data.permissions,
        isDefault := data.isDefault.getD false, isActive := true }
    ⟨.ok role, { db with roles := db.roles ++ [role] },
     [.dbMutate "role.create", .cacheDelPattern "roles:*"]⟩

/-- `prisma.role.findFirst({ where: { isDefault: true, isActive: true } })`
(`RoleService.getDefaultRole`). -/
def getDefaultRole (db : Db) : Option Role :=
  db.roles.find? (fun r => r.isDefault && r.isActive)

/-- The field-wise effect of `prisma.role.update` with a spread
`UpdateRoleDto`: present fields overwrite, absent fields are untouched —
`isDefault` is never among them. -/
def applyUpdate (r : Role) (d : UpdateRoleDto) : Role :=
  { r with
    name := d.name.getD r.name,
    description := match d.description with
      | some s => some s
      | none => r.description,
    permissions := match d.permissions with
      | some ps => some ps
      | none => r.permissions,
    isActive := d.isActive.getD r.isActive }

/-- `RoleService.update`: `prisma.role.update` (throws when the id is absent —
no mutation, no invalidation), then delete `role:<id>`, then clear
`roles:*`. -/
def update (db : Db) (id : String) (data : UpdateRoleDto) :
    ServiceOutcome Role :=
  match db.roles.find? (fun r => r.id == id) with
  | none => ⟨.error ⟨"Record to update not found.", 500⟩, db, []⟩
  | some r =>
    let updated := applyUpdate r data
    ⟨.ok updated,
     { db with roles := db.roles.map (fun x => if x.id == id then applyUpdate x data else x) },
     [.dbMutate "role.update", .cacheDel ("role:" ++ id),
      .cacheDelPattern "roles:*"]⟩

/-- `RoleService.delete`: 404 when absent, 400 when users reference the role;
otherwise delete the row, then `role:<id>`, then `roles:*`. -/
def delete (db : Db) (id : String) : ServiceOutcome String :=
  match db.roles.find? (fun r => r.id == id) with
  | none => ⟨.error ⟨"Role not found", 404⟩, db, []⟩
  | some r =>
    if (db.users.filter (fun u => u.roleId == r.id)).length > 0 then
      ⟨.error ⟨"Cannot delete role with assigned users", 400⟩, db, []⟩
    else
      ⟨.ok "Role deleted successfully",
       { db with roles := db.roles.filter (fun x => x.id != id) },
       [.dbMutate "role.delete", .cacheDel ("role:" ++ id),
        .cacheDelPattern "roles:*"]⟩

/-- `RoleService.setDefault`: first `updateMany` clears `isDefault` on every
role that has it, then `update` sets it on `id` (throwing when `id` is absent
— after the clearing already happened), then clear the `roles:*` pattern;
no `role:<id>` key is deleted. -/
def setDefault (db : Db) (id : String) : ServiceOutcome Role :=
  let cleared := db.roles.map (fun r =>
    if r.isDefault then { r with isDefault := false } else r)
  match cleared.find? (fun r => r.id == id) with
  | none =>
    ⟨.error ⟨"Record to update not found.", 500⟩, { db with roles := cleared },
     [.dbMutate "role.updateMany"]⟩
  | some r =>
    ⟨.ok { r with isDefault := true },
     { db with roles := cleared.map (fun x =>
        if x.id == id then { x with isDefault := true } else x) },
     [.dbMutate "role.updateMany", .dbMutate "role.update",
      .cacheDelPattern "roles:*"]⟩

end RoleService

/-- `hashPassword` (`password.util.ts`): bcrypt, modelled as an opaque
injective tagging. -/
def hashPassword (password : String) : String :=
  "bcrypt$" ++ password

namespace AdminService

/-- `CreateAdminDto` (`src/types/index.ts`). -/
structure CreateAdminDto where
  email : String
  password : String
  name : String
  phone : Option String
  role : Option String
  permissions : Option (List String)
deriving Repr, DecidableEq

/-- `UpdateAdminDto` (`src/types/index.ts`). -/
structure UpdateAdminDto where
  name : Option String
  phone : Option String
  avatar : Option String
  permissions : Option (List String)
deriving Repr, DecidableEq

/-- `AdminService.create`: reject a duplicate email (400); otherwise insert
the row (password hashed, `role` taking the schema default `"ADMIN"` when
absent), then clear the `admins:*` pattern. -/
def create (db : Db) (data : CreateAdminDto) (newId : String) :
    ServiceOutcome Admin :=
  if db.admins.any (fun a => a.email == data.email) then
    ⟨.error ⟨"Admin with this email already exists", 400⟩, db, []⟩
  else
    let admin : Admin :=
      { id := newId, email := data.email,
        password := hashPassword data.password, name := data.name,
        phone := data.phone, avatar := none,
        role := data.role.getD "ADMIN", permissions := data.permissions,
        isActive := true }
    ⟨.ok admin, { db with admins := db.admins ++ [admin] },
     [.dbMutate "admin.create", .cacheDelPattern "admins:*"]⟩

/-- The field-wise effect of `prisma.admin.update` with a spread
`UpdateAdminDto`. -/
def applyUpdate (a : Admin) (d : UpdateAdminDto) : Admin :=
  { a with
    name := d.name.getD a.name,
    phone := match d.phone with | some s => some s | none => a.phone,
    avatar := match d.avatar with | some s => some s | none => a.avatar,
    permissions := match d.permissions with
      | some ps => some ps
      | none => a.permissions }

/-- `AdminService.update`: `prisma.admin.update`, then delete `admin:<id>` —
and nothing else: the `admins:*` pattern is not cleared. -/
def update (db : Db) (id : String) (data : UpdateAdminDto) :
    ServiceOutcome Admin :=
  match db.admins.find? (fun a => a.id == id) with
  | none => ⟨.error ⟨"Record to update not found.", 500⟩, db, []⟩
  | some a =>
    ⟨.ok (applyUpdate a data),
     { db with admins := db.admins.map (fun x =>
        if x.id == id then applyUpdate x data else x) },
     [.dbMutate "admin.update", .cacheDel ("admin:" ++ id)]⟩

/-- `AdminService.delete`: `prisma.admin.delete` (throws when absent), then
delete `admin:<id>`, then clear `admins:*`. -/
def delete (db : Db) (id : String) : ServiceOutcome String :=
  match db.admins.find? (fun a => a.id == id) with
  | none => ⟨.error ⟨"Record to delete does not exist.", 500⟩, db, []⟩
  | some _ =>
    ⟨.ok "Admin deleted successfully",
     { db with admins := db.admins.filter (fun x => x.id != id) },
     [.dbMutate "admin.delete", .cacheDel ("admin:" ++ id),
      .cacheDelPattern "admins:*"]⟩

/-- `AdminService.toggleUserStatus`: 404 when the user is absent; otherwise
flip `isActive`, then delete `user:<id>` — the `users:*` pattern is not
cleared. -/
def toggleUserStatus (db : Db) (userId : String) : ServiceOutcome User :=
  match findUser db userId with
  | none => ⟨.error ⟨"User not found", 404⟩, db, []⟩
  | some u =>
    ⟨.ok { u with isActive := !u.isActive },
     { db with users := db.users.map (fun x =>
        if x.id == userId then { x with isActive := !x.isActive } else x) },
     [.dbMutate "user.update", .cacheDel ("user:" ++ userId)]⟩

end AdminService

namespace UserService

/-- `CreateUserDto` (`src/types/index.ts`). -/
structure CreateUserDto where
  email : String
  password : String
  name : String
  phone : Option String
  roleId : Option String
deriving Repr, DecidableEq

/-- `UpdateUserDto` (`src/types/index.ts`). -/
structure UpdateUserDto where
  name : Option String
  phone : Option String
  avatar : Option String
  roleId : Option String
deriving Repr, DecidableEq

/-- `UserService.create`: reject a duplicate email (400); resolve the role id
— the given one, else the current default role, else a 400 error; insert the
row; then clear the `users:*` pattern. -/
def create (db : Db) (data : CreateUserDto) (newId : String) :
    ServiceOutcome User :=
  if db.users.any (fun u => u.email == data.email) then
    ⟨.error ⟨"User with this email already exists", 400⟩, db, []⟩
  else
    match (match data.roleId with
           | some rid => some rid
           | none => (RoleService.getDefaultRole db).map (fun r => r.id)) with
    | none =>
      ⟨.error ⟨"No default role found. Please create a default role first.", 400⟩,
       db, []⟩
    | some roleId =>
      let user : User :=
        { id := newId, email := data.email,
          password := hashPassword data.password, name := data.name,
          phone := data.phone, avatar := none, roleId := roleId,
          isActive := true }
      ⟨.ok user, { db with users := db.users ++ [user] },
       [.dbMutate "user.create", .cacheDelPattern "users:*"]⟩

/-- The field-wise effect of `prisma.user.update` with an `UpdateUserDto`. -/
def applyUpdate (u : User) (d : UpdateUserDto) : User :=
  { u with
    name := d.name.getD u.name,
    phone := match d.phone with | some s => some s | none => u.phone,
    avatar := match d.avatar with | some s => some s | none => u.avatar,
    roleId := d.roleId.getD u.roleId }

/-- `UserService.update`: `prisma.user.update`, then delete `user:<id>` —
the `users:*` pattern is not cleared. -/
def update (db : Db) (id : String) (data : UpdateUserDto) :
    ServiceOutcome User :=
  match findUser db id with
  | none => ⟨.error ⟨"Record to update not found.", 500⟩, db, []⟩
  | some u =>
    ⟨.ok (applyUpdate u data),
     { db with users := db.users.map (fun x =>
        if x.id == id then applyUpdate x data else x) },
     [.dbMutate "user.update", .cacheDel ("user:" ++ id)]⟩

/-- `UserService.delete`: `prisma.user.delete` (throws when absent), then
delete `user:<id>`, then clear `users:*`. -/
def delete (db : Db) (id : String) : ServiceOutcome String :=
  match findUser db id with
  | none => ⟨.error ⟨"Record to delete does not exist.", 500⟩, db, []⟩
  | some _ =>
    ⟨.ok "User deleted successfully",
     { db with users := db.users.filter (fun x => x.id != id) },
     [.dbMutate "user.delete", .cacheDel ("user:" ++ id),
      .cacheDelPattern "users:*"]⟩

end UserService

/-- The roles currently flagged as default. -/
def defaultRoles (roles : List Role) : List Role :=
  roles.filter (fun r => r.isDefault)

/-! ## Theorems -/

/-- C9: whenever the cache adapter reports not-ready, `getOrSet(k, p)`
invokes the producer exactly once, returns exactly the producer's outcome
(so it throws no cache-originated error: an error can only be the producer's
own), and both the cache read and the follow-up write are no-ops (the cache
state is unchanged). -/
theorem C9_getOrSet_not_ready (s : RedisState) (defaultTTL : Nat)
    (key : String) (fetcher : Except ApiError JsonValue)
    (ttl : Option Nat) (h : s.ready = false) :
    CacheService.getOrSet s defaultTTL key fetcher ttl = ⟨fetcher, s, 1⟩ := by
  cases fetcher <;>
    simp [CacheService.getOrSet, CacheService.get, CacheService.set, h,
      JsonValue.truthy]

/-- Witness for C9 at a concrete disconnected state and producer. -/
theorem C9_getOrSet_not_ready_witness :
    CacheService.getOrSet ⟨false, false, [], 0⟩ 3600 "user:1"
        (.ok (.num 5)) none =
      ⟨.ok (.num 5), ⟨false, false, [], 0⟩, 1⟩ :=
  C9_getOrSet_not_ready ⟨false, false, [], 0⟩ 3600 "user:1" (.ok (.num 5))
    none rfl

/-- C5: for every claim set `c` and ttl `t > 0`, verifying immediately after
signing returns `c` exactly, field-for-field; verifying once `t` seconds have
elapsed returns the uniform invalid result `none`. -/
theorem C5_verify_sign_roundtrip (secret : String) (c : JwtPayload)
    (t now : Nat) (ht : 0 < t) :
    verify secret (sign secret c t now) now = some c ∧
    ∀ d, t ≤ d → verify secret (sign secret c t now) (now + d) = none := by
  constructor
  · simp [verify, sign]
    omega
  · intro d hd
    simp [verify, sign]
    omega

/-- Witness for C5: a concrete claim set signed with ttl 5 at time 100 —
valid at time 100, invalid 7 seconds later. -/
theorem C5_verify_sign_roundtrip_witness :
    verify "k" (sign "k" ⟨"u1", "u@e.com", "user", some "r1", "user"⟩ 5 100)
        100 = some ⟨"u1", "u@e.com", "user", some "r1", "user"⟩ ∧
    verify "k" (sign "k" ⟨"u1", "u@e.com", "user", some "r1", "user"⟩ 5 100)
        (100 + 7) = none :=
  ⟨(C5_verify_sign_roundtrip "k" ⟨"u1", "u@e.com", "user", some "r1", "user"⟩
      5 100 (by decide)).1,
   (C5_verify_sign_roundtrip "k" ⟨"u1", "u@e.com", "user", some "r1", "user"⟩
      5 100 (by decide)).2 7 (by decide)⟩

/-- C6: verification returns the single uniform invalid result `none` both
for an altered token and for an expired one.  A token carrying a genuine
signature but with any one of its claim/timestamp fields altered — or with
the signature itself altered so it no longer matches its fields — verifies to
`none` at every time, and an expired token verifies to `none`; the two
failures are the same value of `Option JwtPayload`, with no error detail to
distinguish them. -/
theorem C6_verify_uniform_invalid (secret : String) (c : JwtPayload)
    (t now m : Nat) (tok : Token) :
    ((tok.sig = (sign secret c t now).sig ∧
        (tok.payload ≠ c ∨ tok.iat ≠ now ∨ tok.exp ≠ now + t)) ∨
      tok.sig ≠ (⟨secret, tok.payload, tok.iat, tok.exp⟩ : Signature) →
      verify secret tok m = none) ∧
    (tok.exp ≤ m → verify secret tok m = none) := by
  constructor
  · intro h
    rcases h with ⟨hsig, halt⟩ | hsig
    · have hne : tok.sig ≠ (⟨secret, tok.payload, tok.iat, tok.exp⟩ : Signature) := by
        rw [hsig]
        simp [sign]
        intro hp hi
        rcases halt with h | h | h
        · exact absurd hp.symm h
        · exact absurd hi.symm h
        · intro he
          exact absurd he.symm h
      simp [verify, hne]
    · simp [verify, hsig]
  · intro hexp
    by_cases hsig : tok.sig = (⟨secret, tok.payload, tok.iat, tok.exp⟩ : Signature)
    · simp [verify, hsig, hexp]
    · simp [verify, hsig]

/-- Witness for C6: a concretely signed token with its expiry field altered
verifies to `none`, and the unaltered token verifies to `none` at its expiry
instant — the same result. -/
theorem C6_verify_uniform_invalid_witness :
    verify "k"
        { sign "k" ⟨"u1", "u@e.com", "user", none, "user"⟩ 5 100 with
          exp := 999 } 100 = none ∧
    verify "k" (sign "k" ⟨"u1", "u@e.com", "user", none, "user"⟩ 5 100)
        105 = none :=
  ⟨(C6_verify_uniform_invalid "k" ⟨"u1", "u@e.com", "user", none, "user"⟩
      5 100 100 _).1
      (Or.inl ⟨rfl, Or.inr (Or.inr (by decide))⟩),
   (C6_verify_uniform_invalid "k" ⟨"u1", "u@e.com", "user", none, "user"⟩
      5 100 105 _).2 (by decide)⟩

/-- C1 (counterexample): the claim fails for falsy stored values.  With a
ready, healthy cache holding the value `false` under `"flag"` within TTL and
no intervening invalidation, `getOrSet("flag", p)` invokes the producer
(`calls = 1`, not `0`) and returns the producer's result instead of the
stored `false`: `if (cached)` is a JavaScript truthiness test, not a
presence test. -/
theorem C1_getOrSet_falsy_counterexample :
    (CacheService.getOrSet
      { ready := true, failing := false,
        store := [("flag", { value := .bool false, expireAt := some 100 })],
        now := 0 }
      3600 "flag" (.ok (.str "recomputed")) none).calls = 1 ∧
    (CacheService.getOrSet
      { ready := true, failing := false,
        store := [("flag", { value := .bool false, expireAt := some 100 })],
        now := 0 }
      3600 "flag" (.ok (.str "recomputed")) none).result =
      .ok (.str "recomputed") ∧
    JsonValue.str "recomputed" ≠ JsonValue.bool false :=
  ⟨rfl, rfl, fun h => nomatch h⟩

/-- C1 (amended): on a ready, healthy cache, `getOrSet(k, p)` returns a
stored, within-TTL value without invoking `p` provided that value is truthy;
a stored falsy value (`false`, `0`, `""`, `null`) — like any miss, expired
entry, unready cache, or caught cache error — makes `getOrSet` invoke `p`
exactly once, return `p`'s outcome, and, if `p` succeeds on a ready, healthy
cache, store `p`'s result under `k` (with the given TTL, or the default when
the given one is absent or zero) before returning. -/
theorem C1_getOrSet_contract :
    (∀ (s : RedisState) (defaultTTL : Nat) (key : String) (e : RedisEntry)
       (t : Nat) (fetcher : Except ApiError JsonValue) (ttl : Option Nat),
       s.ready = true → s.failing = false →
       s.store.find? (fun kv => kv.1 == key) = some (key, e) →
       e.expireAt = some t → s.now < t → e.value.truthy = true →
       CacheService.getOrSet s defaultTTL key fetcher ttl =
         ⟨.ok e.value, s, 0⟩) ∧
    (∀ (s : RedisState) (defaultTTL : Nat) (key : String)
       (fetcher : Except ApiError JsonValue) (ttl : Option Nat),
       (CacheService.get s key).truthy = false →
       (CacheService.getOrSet s defaultTTL key fetcher ttl).calls = 1 ∧
       (CacheService.getOrSet s defaultTTL key fetcher ttl).result = fetcher ∧
       (∀ v, fetcher = .ok v → s.ready = true → s.failing = false →
         0 < defaultTTL →
         (CacheService.getOrSet s defaultTTL key fetcher ttl).state.store.find?
             (fun kv => kv.1 == key) =
           some (key, ⟨v, some (s.now + (match ttl with
             | some t0 => if t0 == 0 then defaultTTL else t0
             | none => defaultTTL))⟩))) := by
  constructor
  · intro s defaultTTL key e t fetcher ttl hready hfail hfind hexp hlive htruthy
    have hget : CacheService.get s key = e.value := by
      simp [CacheService.get, RedisClient.get, hready, hfail, hfind, hexp,
        hlive]
    simp [CacheService.getOrSet, hget, htruthy]
  · intro s defaultTTL key fetcher ttl hmiss
    refine ⟨?_, ?_, ?_⟩
    · cases fetcher <;> simp [CacheService.getOrSet, hmiss]
    · cases fetcher <;> simp [CacheService.getOrSet, hmiss]
    · intro v hv hready hfail hd
      subst hv
      simp [CacheService.getOrSet, hmiss, CacheService.set, hready,
        RedisClient.set, hfail]
      cases ttl with
      | none => simp; omega
      | some t0 =>
        by_cases h0 : t0 = 0
        · simp [h0]; omega
        · simp [h0]

/-- Witness for C1 (amended): a truthy hit is served from the cache without
invoking the producer, and on an empty ready cache the producer runs once and
its result is stored. -/
theorem C1_getOrSet_contract_witness :
    CacheService.getOrSet
        { ready := true, failing := false,
          store := [("user:7", { value := .str "alice", expireAt := some 50 })],
          now := 10 }
        3600 "user:7" (.ok (.str "other")) none =
      ⟨.ok (.str "alice"),
       { ready := true, failing := false,
         store := [("user:7", { value := .str "alice", expireAt := some 50 })],
         now := 10 }, 0⟩ ∧
    (CacheService.getOrSet ⟨true, false, [], 10⟩ 3600 "user:7"
        (.ok (.str "fresh")) none).state.store.find?
        (fun kv => kv.1 == "user:7") =
      some ("user:7", ⟨.str "fresh", some (10 + 3600)⟩) :=
  ⟨C1_getOrSet_contract.1
      { ready := true, failing := false,
        store := [("user:7", { value := .str "alice", expireAt := some 50 })],
        now := 10 }
      3600 "user:7" ⟨.str "alice", some 50⟩ 50 (.ok (.str "other")) none
      rfl rfl rfl rfl (by decide) rfl,
   ((C1_getOrSet_contract.2 ⟨true, false, [], 10⟩ 3600 "user:7"
      (.ok (.str "fresh")) none rfl).2.2 (.str "fresh") rfl rfl rfl
      (by decide))⟩

/-- C3 (counterexample): in `multiAuth`, a request presenting both a valid
static API key and a bearer token that fails verification is NOT rejected —
the invalid bearer falls through to the API-key check and the request is
authenticated as the system principal. -/
theorem C3_multiAuth_counterexample :
    multiAuth
      { apiKey := "topsecret", verifyTok := fun _ => none,
        db := ⟨[], [], [], []⟩, now := 0, dbFails := false }
      { authorization := some "Bearer tampered-token",
        xApiKey := some "topsecret" } = .ok systemUser := by
  rfl

/-- C3 (amended): in the multi-scheme variant, the API-key fallback is
reached both when no bearer token is present and when a presented bearer
token fails verification; in particular a request with an invalid bearer
token and a valid static API key is admitted as the system principal, not
rejected. -/
theorem C3_multiAuth_fallthrough (env : AuthEnv) (req : AuthHeaders)
    (token : String)
    (hextract : extractTokenFromHeader req.authorization = some token)
    (hne : token ≠ "") (hbad : env.verifyTok token = none) :
    multiAuth env req = multiAuthApiKeyFallback env req ∧
    (∀ k, req.xApiKey = some k → env.apiKey ≠ "" → k = env.apiKey →
      multiAuth env req = .ok systemUser) := by
  have hfall : multiAuth env req = multiAuthApiKeyFallback env req := by
    simp [multiAuth, hextract, hne, hbad]
  refine ⟨hfall, ?_⟩
  intro k hk hconf hkey
  subst hkey
  rw [hfall]
  simp [multiAuthApiKeyFallback, hk, hconf]

/-- Witness for C3 (amended) at a concrete environment and request. -/
theorem C3_multiAuth_fallthrough_witness :
    multiAuth
      { apiKey := "svc-key", verifyTok := fun _ => none,
        db := ⟨[], [], [], []⟩, now := 3, dbFails := false }
      { authorization := some "Bearer expired", xApiKey := some "svc-key" } =
      .ok systemUser :=
  (C3_multiAuth_fallthrough
      { apiKey := "svc-key", verifyTok := fun _ => none,
        db := ⟨[], [], [], []⟩, now := 3, dbFails := false }
      { authorization := some "Bearer expired", xApiKey := some "svc-key" }
      "expired" rfl (fun h => nomatch h) rfl).2
    "svc-key" rfl (fun h => nomatch h) rfl

/-- C4: authorization by permission is all-or-nothing — a principal whose
resolved role lacks any one required permission is rejected with 403
(`forbidden`), even when it holds other permissions; and a principal with
`role = "api"` is admitted no matter what permissions are required and no
matter any role's permission set. -/
theorem C4_authorizePermission_all_or_nothing (env : AuthEnv)
    (requiredPermissions : List String) (u : JwtPayload) :
    (u.role = "api" →
      authorizePermission env requiredPermissions (some u) = .ok) ∧
    (∀ (dbUser : User) (role : Role) (p : String),
      u.role ≠ "api" → env.dbFails = false →
      findUser env.db u.id = some dbUser →
      findRole env.db dbUser.roleId = some role →
      p ∈ requiredPermissions → p ∉ role.permissions.getD [] →
      authorizePermission env requiredPermissions (some u) =
        .forbidden "Insufficient permissions") := by
  constructor
  · intro h
    simp [authorizePermission, h]
  · intro dbUser role p hapi hdb hfindu hfindr hp hnotin
    have hall : requiredPermissions.all
        (fun perm => (role.permissions.getD []).contains perm) = false := by
      rw [Bool.eq_false_iff]
      intro hall
      rw [List.all_eq_true] at hall
      have hc := hall p hp
      simp at hc
      exact hnotin hc
    have hapi' : (u.role == "api") = false := by simp [hapi]
    simp only [authorizePermission, hapi', Bool.false_eq_true, if_false, hdb,
      hfindu, hfindr, hall]

/-- Witness for C4: an `"api"` principal passes a demanding permission check,
and a user holding `"read:posts"` but not `"write:comments"` is rejected with
403 for a route requiring both. -/
theorem C4_authorizePermission_all_or_nothing_witness :
    authorizePermission
        { apiKey := "", verifyTok := fun _ => none, db := ⟨[], [], [], []⟩,
          now := 0, dbFails := false }
        ["write:comments"]
        (some ⟨"system", "api@system.local", "api", none, "admin"⟩) = .ok ∧
    authorizePermission
        { apiKey := "", verifyTok := fun _ => none,
          db := ⟨[⟨"r1", "User", "user", none, some ["read:posts"], true, true⟩],
                 [],
                 [⟨"u1", "u@e.com", "pw", "Ann", none, none, "r1", true⟩],
                 []⟩,
          now := 0, dbFails := false }
        ["read:posts", "write:comments"]
        (some ⟨"u1", "u@e.com", "user", some "r1", "user"⟩) =
      .forbidden "Insufficient permissions" :=
  ⟨(C4_authorizePermission_all_or_nothing
      { apiKey := "", verifyTok := fun _ => none, db := ⟨[], [], [], []⟩,
        now := 0, dbFails := false }
      ["write:comments"]
      ⟨"system", "api@system.local", "api", none, "admin"⟩).1 rfl,
   (C4_authorizePermission_all_or_nothing
      { apiKey := "", verifyTok := fun _ => none,
        db := ⟨[⟨"r1", "User", "user", none, some ["read:posts"], true, true⟩],
               [],
               [⟨"u1", "u@e.com", "pw", "Ann", none, none, "r1", true⟩],
               []⟩,
        now := 0, dbFails := false }
      ["read:posts", "write:comments"]
      ⟨"u1", "u@e.com", "user", some "r1", "user"⟩).2
     ⟨"u1", "u@e.com", "pw", "Ann", none, none, "r1", true⟩
     ⟨"r1", "User", "user", none, some ["read:posts"], true, true⟩
     "write:comments" (fun h => nomatch h) rfl rfl rfl
     (by simp) (by simp)⟩

/-- C8 (counterexample): when the principal's user record is missing,
`authorizePermission` rejects with 401 `"User not found"`
(`sendUnauthorized`), not with 403 `"forbidden"` as claimed. -/
theorem C8_missing_user_counterexample :
    authorizePermission
      { apiKey := "", verifyTok := fun _ => none, db := ⟨[], [], [], []⟩,
        now := 0, dbFails := false }
      ["read:thing"]
      (some ⟨"ghost", "g@e.com", "user", some "r1", "user"⟩) =
      .unauthorized "User not found" := by
  rfl

/-- C8 (amended): for a non-`"api"` principal, a thrown permission lookup
error is caught and rejected with 403 `"Permission check failed"`, and an
unresolvable Role relation on a loaded user likewise yields 403; but a
missing user record is rejected with 401 `"User not found"`, not 403. -/
theorem C8_permission_failure_modes (env : AuthEnv)
    (requiredPermissions : List String) (u : JwtPayload)
    (hapi : u.role ≠ "api") :
    (env.dbFails = true →
      authorizePermission env requiredPermissions (some u) =
        .forbidden "Permission check failed") ∧
    (∀ dbUser : User, env.dbFails = false →
      findUser env.db u.id = some dbUser →
      findRole env.db dbUser.roleId = none →
      authorizePermission env requiredPermissions (some u) =
        .forbidden "Permission check failed") ∧
    (env.dbFails = false → findUser env.db u.id = none →
      authorizePermission env requiredPermissions (some u) =
        .unauthorized "User not found") := by
  refine ⟨?_, ?_, ?_⟩
  · intro hdb
    simp [authorizePermission, hapi, hdb]
  · intro dbUser hdb hfindu hfindr
    simp [authorizePermission, hapi, hdb, hfindu, hfindr]
  · intro hdb hfindu
    simp [authorizePermission, hapi, hdb, hfindu]

/-- Witness for C8 (amended): a failing lookup yields 403, a dangling role
reference yields 403, and a missing user yields 401. -/
theorem C8_permission_failure_modes_witness :
    authorizePermission
        { apiKey := "", verifyTok := fun _ => none, db := ⟨[], [], [], []⟩,
          now := 0, dbFails := true }
        ["read:thing"]
        (some ⟨"u1", "u@e.com", "user", some "r1", "user"⟩) =
      .forbidden "Permission check failed" ∧
    authorizePermission
        { apiKey := "", verifyTok := fun _ => none,
          db := ⟨[], [], [⟨"u1", "u@e.com", "pw", "Ann", none, none, "r9", true⟩], []⟩,
          now := 0, dbFails := false }
        ["read:thing"]
        (some ⟨"u1", "u@e.com", "user", some "r9", "user"⟩) =
      .forbidden "Permission check failed" ∧
    authorizePermission
        { apiKey := "", verifyTok := fun _ => none, db := ⟨[], [], [], []⟩,
          now := 0, dbFails := false }
        ["read:thing"]
        (some ⟨"u2", "v@e.com", "user", none, "user"⟩) =
      .unauthorized "User not found" :=
  ⟨(C8_permission_failure_modes
      { apiKey := "", verifyTok := fun _ => none, db := ⟨[], [], [], []⟩,
        now := 0, dbFails := true }
      ["read:thing"] ⟨"u1", "u@e.com", "user", some "r1", "user"⟩
      (fun h => nomatch h)).1 rfl,
   (C8_permission_failure_modes
      { apiKey := "", verifyTok := fun _ => none,
        db := ⟨[], [], [⟨"u1", "u@e.com", "pw", "Ann", none, none, "r9", true⟩], []⟩,
        now := 0, dbFails := false }
      ["read:thing"] ⟨"u1", "u@e.com", "user", some "r9", "user"⟩
      (fun h => nomatch h)).2.1
     ⟨"u1", "u@e.com", "pw", "Ann", none, none, "r9", true⟩ rfl rfl rfl,
   (C8_permission_failure_modes
      { apiKey := "", verifyTok := fun _ => none, db := ⟨[], [], [], []⟩,
        now := 0, dbFails := false }
      ["read:thing"] ⟨"u2", "v@e.com", "user", none, "user"⟩
      (fun h => nomatch h)).2.2 rfl rfl⟩

/-- C10: when no static API key is configured (`config.apiKey = ""`), the
static-key comparison branch is never taken — for every request, a principal
produced by API-key authentication (in either the key-only middleware or the
multi-auth fallback) can only be the principal of a matching unexpired
session row; no request resolves to the system principal through the
static-key path. -/
theorem C10_no_static_key_when_unconfigured (env : AuthEnv)
    (req : AuthHeaders) (u : JwtPayload) (hconf : env.apiKey = "") :
    (authenticateApiKey env req = .ok u ∨
      multiAuthApiKeyFallback env req = .ok u) →
    ∃ s k, req.xApiKey = some k ∧ findSession env.db env.now k = some s ∧
      u = sessionUser s := by
  intro h
  rcases h with h | h <;>
  (rcases hx : req.xApiKey with _ | k
   · simp [authenticateApiKey, multiAuthApiKeyFallback, hx] at h
   · by_cases hk : k = ""
     · simp [authenticateApiKey, multiAuthApiKeyFallback, hx, hk] at h
     · by_cases hdb : env.dbFails
       · simp [authenticateApiKey, multiAuthApiKeyFallback, hx, hk, hconf,
           hdb] at h
       · rcases hs : findSession env.db env.now k with _ | s
         · simp [authenticateApiKey, multiAuthApiKeyFallback, hx, hk, hconf,
             hdb, hs] at h
         · simp [authenticateApiKey, multiAuthApiKeyFallback, hx, hk, hconf,
             hdb, hs] at h
           exact ⟨s, k, rfl, hs, h.symm⟩)

/-- Witness for C10: with an empty configured key and one session row, a
key-authenticated request resolves to that session's principal. -/
theorem C10_no_static_key_when_unconfigured_witness :
    ∃ s k,
      (AuthHeaders.mk none (some "sess-key")).xApiKey = some k ∧
      findSession (Db.mk [] [] [] [⟨"sess-key", "u9", "user", 50⟩]) 7 k =
        some s ∧
      sessionUser ⟨"sess-key", "u9", "user", 50⟩ = sessionUser s :=
  C10_no_static_key_when_unconfigured
    { apiKey := "", verifyTok := fun _ => none,
      db := Db.mk [] [] [] [⟨"sess-key", "u9", "user", 50⟩], now := 7,
      dbFails := false }
    (AuthHeaders.mk none (some "sess-key"))
    (sessionUser ⟨"sess-key", "u9", "user", 50⟩) rfl (Or.inl rfl)

/-- The per-role effect of `setDefault`'s two passes (clear every default,
then set the default on `id`), as one function. -/
def clearThenSet (id : String) (x : Role) : Role :=
  (fun xx : Role => if xx.id == id then { xx with isDefault := true } else xx)
    ((fun r : Role => if r.isDefault then { r with isDefault := false } else r)
      x)

/-- After the clear-then-set pass, a role is default exactly when its id is
`id`. -/
theorem clearThenSet_isDefault (id : String) (x : Role) :
    (clearThenSet id x).isDefault = (x.id == id) := by
  by_cases hd : x.isDefault <;> by_cases hx : x.id = id <;>
    simp [clearThenSet, hd, hx]

/-- The clear-then-set pass preserves every role's id. -/
theorem clearThenSet_id (id : String) (x : Role) :
    (clearThenSet id x).id = x.id := by
  by_cases hd : x.isDefault <;> by_cases hx : x.id = id <;>
    simp [clearThenSet, hd, hx]

/-- Clearing every default flag and then setting it on `id` leaves no default
role when `id` does not occur among the role ids. -/
theorem clearThenSet_no_default (rs : List Role) (id : String)
    (h : ∀ r ∈ rs, r.id ≠ id) :
    (rs.map (clearThenSet id)).filter (fun r => r.isDefault) = [] := by
  induction rs with
  | nil => rfl
  | cons x rs ih =>
    have hx : (x.id == id) = false := by simp [h x (by simp)]
    have htail := ih (fun r hr => h r (List.mem_cons_of_mem _ hr))
    simp only [List.map_cons, List.filter_cons, clearThenSet_isDefault, hx,
      Bool.false_eq_true, if_false]
    exact htail

/-- Clearing every default flag and then setting it on `id` leaves exactly
the role with id `id` as default, when the ids are distinct and `id`
occurs. -/
theorem clearThenSet_exactly_one_default (rs : List Role) (id : String)
    (hnodup : (rs.map Role.id).Nodup) (hmem : id ∈ rs.map Role.id) :
    ((rs.map (clearThenSet id)).filter (fun r => r.isDefault)).map Role.id
      = [id] := by
  induction rs with
  | nil => simp at hmem
  | cons x rs ih =>
    rw [List.map_cons] at hnodup hmem
    rcases List.nodup_cons.mp hnodup with ⟨hxnot, hnodup'⟩
    rcases List.mem_cons.mp hmem with hhead | htail
    · have hx : (x.id == id) = true := by simp [hhead.symm]
      have hrest : ∀ r ∈ rs, r.id ≠ id := by
        intro r hr hrid
        exact hxnot (hhead ▸ hrid ▸ List.mem_map_of_mem Role.id hr)
      have hnil := clearThenSet_no_default rs id hrest
      simp only [List.map_cons, List.filter_cons, clearThenSet_isDefault, hx,
        if_true, hnil, List.map_cons, List.map_nil, clearThenSet_id]
      rw [← hhead]
    · have hx : (x.id == id) = false := by
        simp
        intro hxid
        exact hxnot (hxid ▸ htail)
      have hrec := ih hnodup' htail
      simp only [List.map_cons, List.filter_cons, clearThenSet_isDefault, hx,
        Bool.false_eq_true, if_false]
      exact hrec

/-- Mapping a flag-preserving function over the roles preserves the number of
default roles. -/
theorem countDefaults_map_preserve (rs : List Role) (f : Role → Role)
    (h : ∀ x, (f x).isDefault = x.isDefault) :
    ((rs.map f).filter (fun r => r.isDefault)).length =
      (rs.filter (fun r => r.isDefault)).length := by
  induction rs with
  | nil => rfl
  | cons x rs ih =>
    by_cases hd : x.isDefault <;>
      simp [List.filter_cons, h, hd, ih]

/-- C2 (counterexample): `RoleService.create` does not clear existing
defaults — creating a second role with `isDefault: true` next to an existing
default yields a store with two default roles, violating the claimed
at-most-one invariant. -/
theorem C2_two_defaults_counterexample :
    (defaultRoles (RoleService.create
        ⟨[⟨"r1", "User", "user", none, none, true, true⟩], [], [], []⟩
        ⟨"Premium", "premium", none, none, some true⟩ "r2").db.roles).length
      = 2 := by
  rfl

/-- C2 (amended): after a successful `setDefault(roleId)` on a store with
distinct role ids containing `roleId`, exactly one role is default and it is
`roleId` (the operation clears all defaults before setting the new one);
`update` preserves the number of default roles (`UpdateRoleDto` has no
`isDefault` field); and `create` preserves the number of default roles
whenever `data.isDefault` is not `true` — but `create` with
`isDefault = true` adds a default without clearing others, so it does not
preserve the at-most-one invariant. -/
theorem C2_default_role_invariant :
    (∀ (db : Db) (id : String),
      (db.roles.map Role.id).Nodup → id ∈ db.roles.map Role.id →
      (defaultRoles (RoleService.setDefault db id).db.roles).map Role.id
        = [id]) ∧
    (∀ (db : Db) (id : String) (data : RoleService.UpdateRoleDto),
      (defaultRoles (RoleService.update db id data).db.roles).length =
        (defaultRoles db.roles).length) ∧
    (∀ (db : Db) (data : RoleService.CreateRoleDto) (newId : String),
      data.isDefault ≠ some true →
      (defaultRoles (RoleService.create db data newId).db.roles).length =
        (defaultRoles db.roles).length) := by
  refine ⟨?_, ?_, ?_⟩
  · intro db id hnodup hmem
    have hex : ∃ r ∈ db.roles.map
        (fun r => if r.isDefault then { r with isDefault := false } else r),
        (r.id == id) = true := by
      rcases List.mem_map.mp hmem with ⟨x, hx, hxid⟩
      refine ⟨if x.isDefault then { x with isDefault := false } else x,
        List.mem_map_of_mem _ hx, ?_⟩
      by_cases hd : x.isDefault <;> simp [hd, hxid]
    rcases hf : (db.roles.map
        (fun r => if r.isDefault then { r with isDefault := false } else r)).find?
        (fun r => r.id == id) with _ | r
    · rw [List.find?_eq_none] at hf
      rcases hex with ⟨r, hr, hrid⟩
      exact absurd hrid (by simpa using hf r hr)
    · simp only [RoleService.setDefault, hf, defaultRoles]
      rw [List.map_map]
      exact clearThenSet_exactly_one_default db.roles id hnodup hmem
  · intro db id data
    rcases hf : db.roles.find? (fun r => r.id == id) with _ | x
    · simp [RoleService.update, hf]
    · simp only [RoleService.update, hf, defaultRoles]
      exact countDefaults_map_preserve db.roles _ (fun x => by
        by_cases hx : (x.id == id) = true <;>
          simp [hx, RoleService.applyUpdate])
  · intro db data newId hnd
    by_cases hex : db.roles.any
        (fun r => r.name == data.name || r.slug == data.slug) = true
    · simp [RoleService.create, hex]
    · have hflag : data.isDefault.getD false = false := by
        rcases hni : data.isDefault with _ | b
        · rfl
        · cases b
          · rfl
          · exact absurd hni hnd
      simp [RoleService.create, hex, defaultRoles, List.filter_append, hflag]

/-- Witness for C2 (amended): on a two-role store, `setDefault("r2")` leaves
exactly `r2` as the default; an update and a non-default create preserve the
single default. -/
theorem C2_default_role_invariant_witness :
    (defaultRoles (RoleService.setDefault
        ⟨[⟨"r1", "User", "user", none, none, true, true⟩,
          ⟨"r2", "Mod", "mod", none, none, false, true⟩], [], [], []⟩
        "r2").db.roles).map Role.id = ["r2"] ∧
    (defaultRoles (RoleService.create
        ⟨[⟨"r1", "User", "user", none, none, true, true⟩], [], [], []⟩
        ⟨"Guest", "guest", none, none, none⟩ "r3").db.roles).length =
      (defaultRoles [(⟨"r1", "User", "user", none, none, true, true⟩ : Role)]).length :=
  ⟨C2_default_role_invariant.1
      ⟨[⟨"r1", "User", "user", none, none, true, true⟩,
        ⟨"r2", "Mod", "mod", none, none, false, true⟩], [], [], []⟩
      "r2" (by decide) (by decide),
   C2_default_role_invariant.2.2
      ⟨[⟨"r1", "User", "user", none, none, true, true⟩], [], [], []⟩
      ⟨"Guest", "guest", none, none, none⟩ "r3" (fun h => nomatch h)⟩

/-- C7 (counterexample): `AdminService.update` invalidates only the specific
key `admin:<id>` — it never clears the `admins:*` collection pattern, so the
claim that every write path invalidates both the specific key and every
covering collection pattern fails. -/
theorem C7_admin_update_counterexample :
    (AdminService.update
        ⟨[], [⟨"a1", "a@e.com", "pw", "Ann", none, none, "ADMIN", none, true⟩],
         [], []⟩
        "a1" ⟨some "Bea", none, none, none⟩).events =
      [.dbMutate "admin.update", .cacheDel "admin:a1"] ∧
    ServiceEvent.cacheDelPattern "admins:*" ∉
      (AdminService.update
        ⟨[], [⟨"a1", "a@e.com", "pw", "Ann", none, none, "ADMIN", none, true⟩],
         [], []⟩
        "a1" ⟨some "Bea", none, none, none⟩).events := by
  exact ⟨rfl, by decide⟩

/-- C7 (amended): every successful write path performs its persistence
mutation(s) first and its cache invalidations afterwards, in that order, but
the invalidation sets differ by path: role update/delete and admin/user
delete invalidate the specific key and the collection pattern; role and
admin and user creates invalidate only the collection pattern; admin update,
user update and the user-status toggle invalidate only the specific entity
key; and `setDefault` invalidates only the `roles:*` pattern (no `role:<id>`
key). -/
theorem C7_write_path_invalidation :
    (∀ (db : Db) (data : RoleService.CreateRoleDto) (newId : String) (r : Role),
      (RoleService.create db data newId).result = .ok r →
      (RoleService.create db data newId).events =
        [.dbMutate "role.create", .cacheDelPattern "roles:*"]) ∧
    (∀ (db : Db) (id : String) (data : RoleService.UpdateRoleDto) (r : Role),
      (RoleService.update db id data).result = .ok r →
      (RoleService.update db id data).events =
        [.dbMutate "role.update", .cacheDel ("role:" ++ id),
         .cacheDelPattern "roles:*"]) ∧
    (∀ (db : Db) (id : String) (m : String),
      (RoleService.delete db id).result = .ok m →
      (RoleService.delete db id).events =
        [.dbMutate "role.delete", .cacheDel ("role:" ++ id),
         .cacheDelPattern "roles:*"]) ∧
    (∀ (db : Db) (id : String) (r : Role),
      (RoleService.setDefault db id).result = .ok r →
      (RoleService.setDefault db id).events =
        [.dbMutate "role.updateMany", .dbMutate "role.update",
         .cacheDelPattern "roles:*"]) ∧
    (∀ (db : Db) (data : AdminService.CreateAdminDto) (newId : String)
       (a : Admin),
      (AdminService.create db data newId).result = .ok a →
      (AdminService.create db data newId).events =
        [.dbMutate "admin.create", .cacheDelPattern "admins:*"]) ∧
    (∀ (db : Db) (id : String) (data : AdminService.UpdateAdminDto) (a : Admin),
      (AdminService.update db id data).result = .ok a →
      (AdminService.update db id data).events =
        [.dbMutate "admin.update", .cacheDel ("admin:" ++ id)]) ∧
    (∀ (db : Db) (id : String) (m : String),
      (AdminService.delete db id).result = .ok m →
      (AdminService.delete db id).events =
        [.dbMutate "admin.delete", .cacheDel ("admin:" ++ id),
         .cacheDelPattern "admins:*"]) ∧
    (∀ (db : Db) (userId : String) (u : User),
      (AdminService.toggleUserStatus db userId).result = .ok u →
      (AdminService.toggleUserStatus db userId).events =
        [.dbMutate "user.update", .cacheDel ("user:" ++ userId)]) ∧
    (∀ (db : Db) (data : UserService.CreateUserDto) (newId : String) (u : User),
      (UserService.create db data newId).result = .ok u →
      (UserService.create db data newId).events =
        [.dbMutate "user.create", .cacheDelPattern "users:*"]) ∧
    (∀ (db : Db) (id : String) (data : UserService.UpdateUserDto) (u : User),
      (UserService.update db id data).result = .ok u →
      (UserService.update db id data).events =
        [.dbMutate "user.update", .cacheDel ("user:" ++ id)]) ∧
    (∀ (db : Db) (id : String) (m : String),
      (UserService.delete db id).result = .ok m →
      (UserService.delete db id).events =
        [.dbMutate "user.delete", .cacheDel ("user:" ++ id),
         .cacheDelPattern "users:*"]) := by
  refine ⟨?_, ?_, ?_, ?_, ?_, ?_, ?_, ?_, ?_, ?_, ?_⟩
  · intro db data newId r h
    by_cases hex : db.roles.any
        (fun r => r.name == data.name || r.slug == data.slug) = true
    · simp [RoleService.create, hex] at h
    · simp [RoleService.create, hex]
  · intro db id data r h
    rcases hf : db.roles.find? (fun r => r.id == id) with _ | x
    · simp [RoleService.update, hf] at h
    · simp [RoleService.update, hf]
  · intro db id m h
    rcases hf : db.roles.find? (fun r => r.id == id) with _ | x
    · simp [RoleService.delete, hf] at h
    · by_cases hu : (db.users.filter (fun u => u.roleId == x.id)).length > 0
      · simp [RoleService.delete, hf, hu] at h
      · simp [RoleService.delete, hf, hu]
  · intro db id r h
    rcases hf : (db.roles.map (fun r =>
        if r.isDefault then { r with isDefault := false } else r)).find?
        (fun r => r.id == id) with _ | x
    · simp [RoleService.setDefault, hf] at h
    · simp [RoleService.setDefault, hf]
  · intro db data newId a h
    by_cases hex : db.admins.any (fun a => a.email == data.email) = true
    · simp [AdminService.create, hex] at h
    · simp [AdminService.create, hex]
  · intro db id data a h
    rcases hf : db.admins.find? (fun a => a.id == id) with _ | x
    · simp [AdminService.update, hf] at h
    · simp [AdminService.update, hf]
  · intro db id m h
    rcases hf : db.admins.find? (fun a => a.id == id) with _ | x
    · simp [AdminService.delete, hf] at h
    · simp [AdminService.delete, hf]
  · intro db userId u h
    rcases hf : findUser db userId with _ | x
    · simp [AdminService.toggleUserStatus, hf] at h
    · simp [AdminService.toggleUserStatus, hf]
  · intro db data newId u h
    by_cases hex : db.users.any (fun u => u.email == data.email) = true
    · simp [UserService.create, hex] at h
    · rcases hrid : data.roleId with _ | rid
      · rcases hdef : RoleService.getDefaultRole db with _ | dr
        · simp [UserService.create, hex, hrid, hdef] at h
        · simp [UserService.create, hex, hrid, hdef]
      · simp [UserService.create, hex, hrid]
  · intro db id data u h
    rcases hf : findUser db id with _ | x
    · simp [UserService.update, hf] at h
    · simp [UserService.update, hf]
  · intro db id m h
    rcases hf : findUser db id with _ | x
    · simp [UserService.delete, hf] at h
    · simp [UserService.delete, hf]

/-- Witness for C7 (amended): concrete successful role update, admin delete
and user-status toggle produce exactly the listed mutation-then-invalidation
sequences. -/
theorem C7_write_path_invalidation_witness :
    (RoleService.update
        ⟨[⟨"r1", "User", "user", none, none, true, true⟩], [], [], []⟩
        "r1" ⟨some "Member", none, none, none⟩).events =
      [.dbMutate "role.update", .cacheDel ("role:" ++ "r1"),
       .cacheDelPattern "roles:*"] ∧
    (AdminService.delete
        ⟨[], [⟨"a1", "a@e.com", "pw", "Ann", none, none, "ADMIN", none, true⟩],
         [], []⟩ "a1").events =
      [.dbMutate "admin.delete", .cacheDel ("admin:" ++ "a1"),
       .cacheDelPattern "admins:*"] ∧
    (AdminService.toggleUserStatus
        ⟨[], [], [⟨"u1", "u@e.com", "pw", "Uma", none, none, "r1", true⟩], []⟩
        "u1").events =
      [.dbMutate "user.update", .cacheDel ("user:" ++ "u1")] :=
  ⟨C7_write_path_invalidation.2.1
      ⟨[⟨"r1", "User", "user", none, none, true, true⟩], [], [], []⟩
      "r1" ⟨some "Member", none, none, none⟩ _ rfl,
   C7_write_path_invalidation.2.2.2.2.2.2.1
      ⟨[], [⟨"a1", "a@e.com", "pw", "Ann", none, none, "ADMIN", none, true⟩],
       [], []⟩ "a1" _ rfl,
   C7_write_path_invalidation.2.2.2.2.2.2.2.1
      ⟨[], [], [⟨"u1", "u@e.com", "pw", "Uma", none, none, "r1", true⟩], []⟩
      "u1" _ rfl⟩

end NodeBackend
